import Mathlib

/-!
# Light client service (`src/les/backend.go`)

A shallow embedding of package `les`, file `backend.go`:

* `lesTopic`, the discovery topic derived from the genesis hash;
* the `LightDummyAPI` methods `Etherbase`, `Coinbase`, `Hashrate`, `Mining`;
* the constructor `New`, as a computation over an explicit world (an
  allocator of object references and the trace of calls to collaborators);
* `LightLCC.Start`, in the same style.

Objects that the Go code handles through pointers are represented by
references (`Ref`) drawn from a counter, so two objects are the same object
exactly when their references are equal.  The collaborators of `New` and
`Start` (database, genesis setup, light chain, protocol manager, ...) are not
part of the file; their observable outcomes are parameters (`Collaborators`).
-/

namespace Les

/-! ## Bytes, hashes, addresses -/

/-- Go `byte`. -/
abbrev Byte := Fin 256

/-- Type `common.Hash`, a `[32]byte`. -/
structure Hash where
  bytes : List Byte
  size : bytes.length = 32
  deriving DecidableEq

/-- Type `common.Address`, a `[20]byte`. -/
structure Address where
  bytes : List Byte
  size : bytes.length = 20
  deriving DecidableEq

/-- The zero value `common.Address{}`: twenty zero bytes. -/
def Address.zero : Address := ⟨List.replicate 20 0, by simp⟩

/-- Method `Hash.Bytes`: the bytes of the array as a slice. -/
def Hash.Bytes (h : Hash) : List Byte := h.bytes

/-- Go slice expression `b[lo:hi]` on a slice whose length covers `hi`. -/
def slice (b : List Byte) (lo hi : Nat) : List Byte := (b.take hi).drop lo

/-- The digit table of the Go package `encoding/hex`. -/
def hextable : List Char :=
  ['0', '1', '2', '3', '4', '5', '6', '7', '8', '9', 'a', 'b', 'c', 'd', 'e', 'f']

/-- The two digits `hex.Encode` writes for the byte `v`: `hextable[v>>4]`,
then `hextable[v&0x0f]`. -/
def hexPair (v : Byte) : List Char :=
  [hextable.getD (v.val >>> 4) '0', hextable.getD (v.val &&& 0x0f) '0']

/-- Modelled from the spec: `common.Bytes2Hex` is not among the sources. It is
the lowercase hexadecimal encoding of a byte slice, as `hex.EncodeToString`
computes it: the two digits of each byte, most significant first, in the
order of the bytes. -/
def Bytes2Hex (d : List Byte) : String :=
  String.mk (d.flatMap hexPair)

/-- Type `discv5.Topic`, a string. -/
abbrev Topic := String

/-- Function `lesTopic` (backend.go, line 129). -/
def lesTopic (genesisHash : Hash) : Topic :=
  "LES@" ++ Bytes2Hex (slice genesisHash.Bytes 0 8)

/-- The value of a lowercase hexadecimal digit, and `none` for any other
character (uppercase digits included). -/
def hexValue (c : Char) : Option Nat :=
  if '0' ≤ c ∧ c ≤ '9' then some (c.toNat - '0'.toNat)
  else if 'a' ≤ c ∧ c ≤ 'f' then some (c.toNat - 'a'.toNat + 10)
  else none

/-- Reading of a lowercase hexadecimal string, two digits per byte, most
significant digit first; `none` when a character is not such a digit or a
digit is left over. -/
def decodeHex : List Char → Option (List Nat)
  | [] => some []
  | [_] => none
  | hi :: lo :: rest =>
    match hexValue hi, hexValue lo, decodeHex rest with
    | some a, some b, some bs => some ((16 * a + b) :: bs)
    | _, _, _ => none

/-! ## Errors -/

/-- Type `params.ConfigCompatError`; `New` reads the field `RewindTo` only. -/
structure ConfigCompatError where
  What : String
  RewindTo : Nat
  deriving DecidableEq, Repr

/-- A non-nil Go `error` value, by dynamic type: a `*params.ConfigCompatError`
pointing to the struct `c`, or a value of another type, identified by its
message. The Go interface type `error` is `Option GoError`, `none` being
`nil`. -/
inductive GoError where
  | configCompat (c : ConfigCompatError)
  | plain (msg : String)
  deriving DecidableEq, Repr

/-- Call `fmt.Errorf(format)` with a format that has no verb and no operand:
the error whose message is the format. -/
def Errorf (format : String) : Option GoError := some (.plain format)

/-- The comma-ok type assertion `err.(*params.ConfigCompatError)`: `some c`
when it holds (`ok` is true and the pointer is to `c`), `none` when `ok` is
false, which includes the `nil` interface. -/
def assertConfigCompat : Option GoError → Option ConfigCompatError
  | some (.configCompat c) => some c
  | _ => none

/-! ## LightDummyAPI -/

/-- Type `LightDummyAPI`, an empty struct. -/
structure LightDummyAPI where
  deriving DecidableEq

/-- Method `Etherbase` (line 136). -/
def LightDummyAPI.Etherbase (_s : LightDummyAPI) : Address × Option GoError :=
  (Address.zero, Errorf "not supported")

/-- Method `Coinbase` (line 141). -/
def LightDummyAPI.Coinbase (_s : LightDummyAPI) : Address × Option GoError :=
  (Address.zero, Errorf "not supported")

/-- Method `Hashrate` (line 146); `hexutil.Uint` is an unsigned integer. -/
def LightDummyAPI.Hashrate (_s : LightDummyAPI) : Nat := 0

/-- Method `Mining` (line 151). -/
def LightDummyAPI.Mining (_s : LightDummyAPI) : Bool := false

/-! ## The world of `New` and `Start` -/

/-- A reference to an object allocated while the service runs. -/
abbrev Ref := Nat

/-- A `*params.ChainConfig`, as `core.SetupGenesisBlock` hands it out. -/
structure ChainConfig where
  id : Nat
  deriving DecidableEq, Repr

/-- A `*core.Genesis`, the field `Genesis` of the configuration. -/
structure Genesis where
  id : Nat
  deriving DecidableEq, Repr

/-- Type `gasprice.Config`; `Default` is a `*big.Int`. -/
structure GpoConfig where
  Blocks : Int
  Percentile : Int
  Default : Option Int
  deriving DecidableEq, Repr

/-- The fields of `eth.Config` that `New` reads. -/
structure Config where
  Genesis : Option Genesis
  NetworkId : Nat
  GasPrice : Option Int
  GPO : GpoConfig
  deriving DecidableEq, Repr

/-- The fields of `node.ServiceContext` that `New` reads. -/
structure ServiceContext where
  EventMux : Nat
  AccountManager : Nat
  deriving DecidableEq, Repr

/-- What a call that returns `(pointer, error)` gave back. -/
inductive Ret where
  | ok (r : Ref)
  | err (e : GoError)
  deriving DecidableEq, Repr

/-- The arguments of `NewProtocolManager`, in the order of its signature
as `New` calls it (line 117). The eighth argument is the literal `nil`. -/
structure PMArgs where
  chainConfig : ChainConfig
  lightSync : Bool
  networkId : Nat
  mux : Nat
  engine : Ref
  peers : Ref
  blockchain : Ref
  txpool : Option Ref
  chainDb : Ref
  odr : Ref
  txrelay : Ref
  quitSync : Ref
  wg : Ref
  deriving DecidableEq, Repr

/-- A call made by the service to a collaborator, with its arguments and,
last, what it returned. -/
inductive Call where
  | CreateDB (ctx : ServiceContext) (config : Config) (name : String) (ret : Ret)
  | SetupGenesisBlock (db : Ref) (genesis : Option Genesis)
      (chainConfig : ChainConfig) (genesisHash : Hash) (genesisErr : Option GoError)
  | logInfo (msg : String)
  | logWarn (msg : String)
  | newPeerSet (ret : Ref)
  | makeChan (ret : Ref)
  | newRequestDistributor (peers stop : Ref) (ret : Ref)
  | CreateConsensusEngine (ctx : ServiceContext) (config : Config)
      (chainConfig : ChainConfig) (db : Ref) (ret : Ref)
  | allocLightLCC (ret wg : Ref)
  | NewLesTxRelay (ps reqDist : Ref) (ret : Ref)
  | newServerPool (db quit wg : Ref) (ret : Ref)
  | newRetrieveManager (peers dist serverPool : Ref) (ret : Ref)
  | NewLesOdr (db retriever : Ref) (ret : Ref)
  | NewLightChain (odr : Ref) (config : ChainConfig) (engine : Ref) (ret : Ret)
  | SetHead (blockchain : Ref) (head : Nat)
  | WriteChainConfig (db : Ref) (hash : Hash) (cfg : ChainConfig)
  | NewTxPool (config : ChainConfig) (chain relay : Ref) (ret : Ref)
  | NewProtocolManager (args : PMArgs) (ret : Ret)
  | allocLesApiBackend (eth : Ref) (ret : Ref)
  | NewOracle (backend : Ref) (params : GpoConfig) (ret : Ref)
  | NewPublicNetAPI (srvr : Ref) (networkId : Nat) (ret : Ref)
  | serverPoolStart (pool srvr : Ref) (topic : Topic)
  | protocolManagerStart (pm : Ref)
  deriving DecidableEq

/-- The state threaded through the service: the next free reference and the
calls made so far, oldest first. -/
structure World where
  next : Ref
  trace : List Call
  deriving DecidableEq

/-- Allocation of a new object. -/
def fresh : StateM World Ref :=
  fun w => (w.next, { w with next := w.next + 1 })

/-- Recording of a call. -/
def emit (c : Call) : StateM World Unit :=
  fun w => ((), { w with trace := w.trace ++ [c] })

/-- The outcomes of the collaborators that decide the control flow of `New`
and `Start`. An `Option GoError` is the `error` a call returns. -/
structure Collaborators where
  CreateDB : ServiceContext → Config → String → Option GoError
  SetupGenesisBlock : Ref → Option Genesis → ChainConfig × Hash × Option GoError
  NewLightChain : Ref → ChainConfig → Ref → Option GoError
  NewProtocolManager : PMArgs → Option GoError
  GenesisHash : Ref → Hash

/-- A call that returns `(pointer, error)`: on the error `e` chosen by the
collaborator nothing is allocated, otherwise a new object is returned. -/
def callFallible (outcome : Option GoError) (call : Ret → Call) : StateM World Ret := do
  match outcome with
  | some e =>
    emit (call (.err e))
    pure (.err e)
  | none =>
    let r ← fresh
    emit (call (.ok r))
    pure (.ok r)

/-- A constructor call that cannot fail: a new object is returned. -/
def construct (call : Ref → Call) : StateM World Ref := do
  let r ← fresh
  emit (call r)
  pure r

/-! ## The service -/

/-- Type `LesApiBackend`, as `New` fills it: `&LesApiBackend{eth, nil}` at
address `addr`, then the field `gpo`. -/
structure LesApiBackend where
  addr : Ref
  eth : Ref
  gpo : Option Ref
  deriving DecidableEq, Repr

/-- Type `LightLCC` (line 47). `addr` is the address of the struct and `wg`
the address of its wait group, `&eth.wg`. -/
structure LightLCC where
  addr : Ref
  odr : Ref
  relay : Ref
  chainConfig : ChainConfig
  shutdownChan : Ref
  peers : Ref
  txPool : Ref
  blockchain : Ref
  protocolManager : Ref
  serverPool : Ref
  reqDist : Ref
  retriever : Ref
  chainDb : Ref
  ApiBackend : LesApiBackend
  eventMux : Nat
  engine : Ref
  accountManager : Nat
  networkId : Nat
  netRPCService : Option Ref
  wg : Ref
  deriving DecidableEq, Repr

/-- The `return` statement of `New` that was executed: after `eth.CreateDB`
(line 79), after the genesis check (line 83), after `light.NewLightChain`
(line 107), after `NewProtocolManager` (line 118), or the last one
(line 126). Go compares error values by identity: an error returned by a
later call is another object than `genesisErr`, whatever its content, and
the return statement is what tells the two apart here. -/
inductive ReturnSite where
  | createDB
  | genesis
  | lightChain
  | protocolManager
  | done
  deriving DecidableEq, Repr

/-- The pair `(*LightLCC, error)` that `New` returns, with the `return`
statement it came from. -/
structure NewResult where
  eth : Option LightLCC
  err : Option GoError
  site : ReturnSite
  deriving DecidableEq, Repr

/-- Function `New` (line 76). -/
def New (E : Collaborators) (ctx : ServiceContext) (config : Config) : StateM World NewResult := do
  match ← callFallible (E.CreateDB ctx config "lightchaindata")
      (.CreateDB ctx config "lightchaindata") with
  | .err err => return ⟨none, some err, .createDB⟩
  | .ok chainDb =>
  let (chainConfig, genesisHash, genesisErr) := E.SetupGenesisBlock chainDb config.Genesis
  emit (.SetupGenesisBlock chainDb config.Genesis chainConfig genesisHash genesisErr)
  let isCompat := (assertConfigCompat genesisErr).isSome
  if genesisErr != none && !isCompat then
    return ⟨none, genesisErr, .genesis⟩
  emit (.logInfo "Initialised chain configuration")
  let peers ← construct .newPeerSet
  let quitSync ← construct .makeChan
  -- the struct literal of line 90, its operands in order
  let reqDist ← construct (.newRequestDistributor peers quitSync)
  let engine ← construct (.CreateConsensusEngine ctx config chainConfig chainDb)
  let shutdownChan ← construct .makeChan
  let eth ← fresh
  let wg ← construct (.allocLightLCC eth)
  let relay ← construct (.NewLesTxRelay peers reqDist)
  let serverPool ← construct (.newServerPool chainDb quitSync wg)
  let retriever ← construct (.newRetrieveManager peers reqDist serverPool)
  let odr ← construct (.NewLesOdr chainDb retriever)
  match ← callFallible (E.NewLightChain odr chainConfig engine)
      (.NewLightChain odr chainConfig engine) with
  | .err err => return ⟨none, some err, .lightChain⟩
  | .ok blockchain =>
  -- Rewind the chain in case of an incompatible config upgrade.
  if let some compat := assertConfigCompat genesisErr then
    emit (.logWarn "Rewinding chain to upgrade configuration")
    emit (.SetHead blockchain compat.RewindTo)
    emit (.WriteChainConfig chainDb genesisHash chainConfig)
  let txPool ← construct (.NewTxPool chainConfig blockchain relay)
  let pmArgs : PMArgs := ⟨chainConfig, true, config.NetworkId, ctx.EventMux, engine, peers,
    blockchain, none, chainDb, odr, relay, quitSync, wg⟩
  match ← callFallible (E.NewProtocolManager pmArgs) (.NewProtocolManager pmArgs) with
  | .err err => return ⟨none, some err, .protocolManager⟩
  | .ok protocolManager =>
  let apiBackend ← construct (.allocLesApiBackend eth)
  let gpoParams := config.GPO
  let gpoParams : GpoConfig :=
    if gpoParams.Default == none then { gpoParams with Default := config.GasPrice } else gpoParams
  let gpo ← construct (.NewOracle apiBackend gpoParams)
  return ⟨some {
      addr := eth
      odr := odr
      relay := relay
      chainConfig := chainConfig
      shutdownChan := shutdownChan
      peers := peers
      txPool := txPool
      blockchain := blockchain
      protocolManager := protocolManager
      serverPool := serverPool
      reqDist := reqDist
      retriever := retriever
      chainDb := chainDb
      ApiBackend := ⟨apiBackend, eth, some gpo⟩
      eventMux := ctx.EventMux
      engine := engine
      accountManager := ctx.AccountManager
      networkId := config.NetworkId
      netRPCService := none
      wg := wg }, none, .done⟩

/-- Method `LightLCC.Start` (line 202): the service with `netRPCService`
set, and the `nil` error it returns. -/
def LightLCC.Start (E : Collaborators) (s : LightLCC) (srvr : Ref) :
    StateM World (LightLCC × Option GoError) := do
  emit (.logWarn "Light client mode is an experimental feature")
  let netRPCService ← construct (.NewPublicNetAPI srvr s.networkId)
  let s := { s with netRPCService := some netRPCService }
  emit (.serverPoolStart s.serverPool srvr (lesTopic (E.GenesisHash s.blockchain)))
  emit (.protocolManagerStart s.protocolManager)
  return (s, none)

/-! ## Sample runs -/

/-- A world with nothing allocated and nothing called. -/
def World.empty : World := ⟨0, []⟩

/-- A genesis hash with bytes 0, 1, ..., 31. -/
def sampleHash : Hash := ⟨(List.range 32).map fun i => Fin.ofNat i, by simp⟩

/-- Collaborators that all succeed, the genesis setup returning the
error `genesisErr`. -/
def sampleCollaborators (genesisErr : Option GoError) : Collaborators where
  CreateDB := fun _ _ _ => none
  SetupGenesisBlock := fun _ _ => (⟨7⟩, sampleHash, genesisErr)
  NewLightChain := fun _ _ _ => none
  NewProtocolManager := fun _ => none
  GenesisHash := fun _ => sampleHash

/-- A service context. -/
def sampleCtx : ServiceContext := ⟨100, 101⟩

/-- A configuration without gas price oracle default. -/
def sampleConfig : Config := ⟨none, 1, some 18, ⟨10, 50, none⟩⟩

/-- A configuration compatibility error asking for a rewind to block 5. -/
def sampleCompat : Option GoError := some (.configCompat ⟨"fork block", 5⟩)

/-- The run of `New` on the sample inputs, the genesis setup reporting
`sampleCompat`. -/
def sampleRun : NewResult × World :=
  (New (sampleCollaborators sampleCompat) sampleCtx sampleConfig).run World.empty

/-- The collaborators `E`, except that the genesis setup returns the error
`ge` next to the chain configuration and genesis hash it returns in `E`. -/
def Collaborators.withGenesisErr (E : Collaborators) (ge : Option GoError) : Collaborators :=
  { E with SetupGenesisBlock := fun db g =>
      ((E.SetupGenesisBlock db g).1, (E.SetupGenesisBlock db g).2.1, ge) }

/-! ## Predicates on calls -/

/-- Whether a call is `newPeerSet`. -/
def Call.isNewPeerSet : Call → Bool
  | .newPeerSet _ => true
  | _ => false

/-- Whether a call is `serverPool.start`. -/
def Call.isServerPoolStart : Call → Bool
  | .serverPoolStart _ _ _ => true
  | _ => false

/-! ## The runs of `New` in closed form -/

/-- The calls of `New` up to the genesis check, the database being `n`. -/
def callsGenesis (ctx : ServiceContext) (config : Config) (n : Ref) (cc : ChainConfig)
    (gh : Hash) (ge : Option GoError) : List Call :=
  [.CreateDB ctx config "lightchaindata" (.ok n), .SetupGenesisBlock n config.Genesis cc gh ge]

/-- The calls of `New` from the genesis check to `NewLesOdr`. -/
def callsWiring (ctx : ServiceContext) (config : Config) (n : Ref) (cc : ChainConfig) :
    List Call :=
  [.logInfo "Initialised chain configuration", .newPeerSet (n + 1), .makeChan (n + 2),
   .newRequestDistributor (n + 1) (n + 2) (n + 3),
   .CreateConsensusEngine ctx config cc n (n + 4), .makeChan (n + 5),
   .allocLightLCC (n + 6) (n + 7), .NewLesTxRelay (n + 1) (n + 3) (n + 8),
   .newServerPool n (n + 2) (n + 7) (n + 9), .newRetrieveManager (n + 1) (n + 3) (n + 9) (n + 10),
   .NewLesOdr n (n + 10) (n + 11)]

/-- The calls of the rewind of lines 110 to 114. -/
def callsRewind (n : Ref) (cc : ChainConfig) (gh : Hash) : Option ConfigCompatError → List Call
  | some c => [.logWarn "Rewinding chain to upgrade configuration", .SetHead (n + 12) c.RewindTo,
      .WriteChainConfig n gh cc]
  | none => []

/-- The arguments `New` passes to `NewProtocolManager`. -/
def pmArgsAt (ctx : ServiceContext) (config : Config) (n : Ref) (cc : ChainConfig) : PMArgs :=
  ⟨cc, true, config.NetworkId, ctx.EventMux, n + 4, n + 1, n + 12, none, n, n + 11, n + 8,
    n + 2, n + 7⟩

/-- The gas price oracle parameters of lines 121 to 124. -/
def gpoParamsAt (config : Config) : GpoConfig :=
  if config.GPO.Default = none then { config.GPO with Default := config.GasPrice } else config.GPO

/-- The service `New` returns at line 126. -/
def serviceAt (ctx : ServiceContext) (config : Config) (n : Ref) (cc : ChainConfig) : LightLCC :=
  { addr := n + 6, odr := n + 11, relay := n + 8, chainConfig := cc, shutdownChan := n + 5,
    peers := n + 1, txPool := n + 13, blockchain := n + 12, protocolManager := n + 14,
    serverPool := n + 9, reqDist := n + 3, retriever := n + 10, chainDb := n,
    ApiBackend := ⟨n + 15, n + 6, some (n + 16)⟩, eventMux := ctx.EventMux, engine := n + 4,
    accountManager := ctx.AccountManager, networkId := config.NetworkId, netRPCService := none,
    wg := n + 7 }

/-- The run of `New` from an empty trace, by the outcomes of the collaborators. -/
def runAt (E : Collaborators) (ctx : ServiceContext) (config : Config) (n : Ref)
    (cc : ChainConfig) (gh : Hash) (ge : Option GoError) : NewResult × World :=
  if ge ≠ none ∧ assertConfigCompat ge = none then
    (⟨none, ge, .genesis⟩, ⟨n + 1, callsGenesis ctx config n cc gh ge⟩)
  else
    match E.NewLightChain (n + 11) cc (n + 4) with
    | some e =>
      (⟨none, some e, .lightChain⟩,
        ⟨n + 12, callsGenesis ctx config n cc gh ge ++ callsWiring ctx config n cc ++
          [.NewLightChain (n + 11) cc (n + 4) (.err e)]⟩)
    | none =>
      match E.NewProtocolManager (pmArgsAt ctx config n cc) with
      | some e =>
        (⟨none, some e, .protocolManager⟩,
          ⟨n + 14, callsGenesis ctx config n cc gh ge ++ callsWiring ctx config n cc ++
            [.NewLightChain (n + 11) cc (n + 4) (.ok (n + 12))] ++
            callsRewind n cc gh (assertConfigCompat ge) ++
            [.NewTxPool cc (n + 12) (n + 8) (n + 13),
             .NewProtocolManager (pmArgsAt ctx config n cc) (.err e)]⟩)
      | none =>
        (⟨some (serviceAt ctx config n cc), none, .done⟩,
          ⟨n + 17, callsGenesis ctx config n cc gh ge ++ callsWiring ctx config n cc ++
            [.NewLightChain (n + 11) cc (n + 4) (.ok (n + 12))] ++
            callsRewind n cc gh (assertConfigCompat ge) ++
            [.NewTxPool cc (n + 12) (n + 8) (n + 13),
             .NewProtocolManager (pmArgsAt ctx config n cc) (.ok (n + 14)),
             .allocLesApiBackend (n + 6) (n + 15),
             .NewOracle (n + 15) (gpoParamsAt config) (n + 16)]⟩)

/-! ## Lemmas on the hexadecimal encoding -/

theorem Bytes2Hex_data (d : List Byte) : (Bytes2Hex d).data = d.flatMap hexPair := rfl

set_option maxRecDepth 100000 in
theorem hexPair_decode (v : Byte) :
    hexValue (hextable.getD (v.val >>> 4) '0') = some (v.val / 16) ∧
    hexValue (hextable.getD (v.val &&& 0x0f) '0') = some (v.val % 16) ∧
    hextable.getD (v.val >>> 4) '0' ∈ hextable ∧
    hextable.getD (v.val &&& 0x0f) '0' ∈ hextable := by
  revert v
  decide

theorem flatMap_hexPair_length (d : List Byte) : (d.flatMap hexPair).length = 2 * d.length := by
  induction d with
  | nil => rfl
  | cons v d ih => simp [List.flatMap_cons, hexPair, ih]; omega

theorem flatMap_hexPair_mem (d : List Byte) : ∀ c ∈ d.flatMap hexPair, c ∈ hextable := by
  intro c hc
  rw [List.mem_flatMap] at hc
  obtain ⟨v, _, hv⟩ := hc
  have h := hexPair_decode v
  simp only [hexPair, List.mem_cons, List.mem_singleton, List.not_mem_nil, or_false] at hv
  rcases hv with rfl | rfl
  · exact h.2.2.1
  · exact h.2.2.2

theorem decodeHex_flatMap_hexPair (d : List Byte) :
    decodeHex (d.flatMap hexPair) = some (d.map fun v => v.val) := by
  induction d with
  | nil => rfl
  | cons v d ih =>
    have h := hexPair_decode v
    have e : (v :: d).flatMap hexPair
        = hextable.getD (v.val >>> 4) '0' :: hextable.getD (v.val &&& 0x0f) '0'
            :: d.flatMap hexPair := by
      simp [List.flatMap_cons, hexPair]
    rw [e, decodeHex, h.1, h.2.1, ih]
    simp only [List.map_cons]
    congr 2
    omega

set_option maxRecDepth 100000 in
theorem hexPair_utf8Len (v : Byte) : String.utf8Len (hexPair v) = 2 := by
  revert v
  decide

theorem flatMap_hexPair_utf8Len (d : List Byte) :
    String.utf8Len (d.flatMap hexPair) = 2 * d.length := by
  induction d with
  | nil => rfl
  | cons v d ih =>
    rw [List.flatMap_cons, String.utf8Len_append, hexPair_utf8Len, ih, List.length_cons]
    omega

theorem slice_zero (b : List Byte) (hi : Nat) : slice b 0 hi = b.take hi := by
  simp [slice]

theorem lesTopic_data (h : Hash) :
    (lesTopic h).data = ['L', 'E', 'S', '@'] ++ (h.bytes.take 8).flatMap hexPair := by
  simp [lesTopic, Hash.Bytes, slice_zero, Bytes2Hex_data]

/-! ## The runs of `New` -/

set_option maxHeartbeats 1000000 in
theorem New_run_eq (E : Collaborators) (ctx : ServiceContext) (config : Config) (n : Ref)
    (cc : ChainConfig) (gh : Hash) (ge : Option GoError)
    (hdb : E.CreateDB ctx config "lightchaindata" = none)
    (hg : E.SetupGenesisBlock n config.Genesis = (cc, gh, ge)) :
    (New E ctx config).run ⟨n, []⟩ = runAt E ctx config n cc gh ge := by
  rcases ge with _ | (c | m)
  · cases hlc : E.NewLightChain (n + 11) cc (n + 4) with
    | some e =>
      simp [New, runAt, callsGenesis, callsWiring, callFallible, construct, fresh, emit, StateT.run, bind, StateT.bind, pure,
        StateT.pure, hdb, hg, assertConfigCompat, hlc]
    | none =>
      cases hpm : E.NewProtocolManager ⟨cc, true, config.NetworkId, ctx.EventMux, n + 4, n + 1,
          n + 12, none, n, n + 11, n + 8, n + 2, n + 7⟩ <;>
      simp [New, runAt, callsGenesis, callsWiring, callsRewind, pmArgsAt, gpoParamsAt, serviceAt, callFallible, construct, fresh, emit, StateT.run, bind, StateT.bind, pure,
        StateT.pure, hdb, hg, assertConfigCompat, hlc, hpm]
  · cases hlc : E.NewLightChain (n + 11) cc (n + 4) with
    | some e =>
      simp [New, runAt, callsGenesis, callsWiring, callFallible, construct, fresh, emit, StateT.run, bind, StateT.bind, pure,
        StateT.pure, hdb, hg, assertConfigCompat, hlc]
    | none =>
      cases hpm : E.NewProtocolManager ⟨cc, true, config.NetworkId, ctx.EventMux, n + 4, n + 1,
          n + 12, none, n, n + 11, n + 8, n + 2, n + 7⟩ <;>
      simp [New, runAt, callsGenesis, callsWiring, callsRewind, pmArgsAt, gpoParamsAt, serviceAt, callFallible, construct, fresh, emit, StateT.run, bind, StateT.bind, pure,
        StateT.pure, hdb, hg, assertConfigCompat, hlc, hpm]
  · simp [New, runAt, callsGenesis, callFallible, construct, fresh, emit, StateT.run, bind, StateT.bind, pure,
        StateT.pure, hdb, hg, assertConfigCompat]


/-! ## The genesis check of `New` -/

/-- With a `ConfigCompatError` the closed form returns what it returns with a
nil genesis error. -/
theorem runAt_compat_result (E : Collaborators) (ctx : ServiceContext) (config : Config)
    (n : Ref) (cc : ChainConfig) (gh : Hash) (c : ConfigCompatError) :
    (runAt (E.withGenesisErr none) ctx config n cc gh none).1
      = (runAt E ctx config n cc gh (some (.configCompat c))).1 := by
  have h1 : (E.withGenesisErr none).NewLightChain = E.NewLightChain := rfl
  have h2 : (E.withGenesisErr none).NewProtocolManager = E.NewProtocolManager := rfl
  simp only [runAt, h1, h2]
  cases E.NewLightChain (n + 11) cc (n + 4) with
  | some e => simp [assertConfigCompat]
  | none =>
    cases E.NewProtocolManager (pmArgsAt ctx config n cc) <;> simp [assertConfigCompat]

set_option maxHeartbeats 4000000 in
/-- C1: when `eth.CreateDB` succeeded, `New` returns from its genesis check
(and then with no service, the error `genesisErr` and no call after the
genesis setup) exactly when the error `core.SetupGenesisBlock` returned is
non-nil and not a `*params.ConfigCompatError`. Otherwise it calls
`light.NewLightChain` once and what happens next is decided by the
collaborators alone: if `light.NewLightChain` fails, `New` returns that error
and rewinds nothing; if it returns a chain, then with a `ConfigCompatError`
`SetHead(compat.RewindTo)` on that chain and `WriteChainConfig` of the chain
configuration under the genesis hash follow, in this order, and with a nil
`genesisErr` neither is called; `New` then fails exactly when
`NewProtocolManager` fails, with its error, and succeeds otherwise. With a
`ConfigCompatError`, `New` returns what it returns when the genesis setup
reports no error. -/
theorem New_genesis_check (E : Collaborators) (ctx : ServiceContext) (config : Config) (n : Ref)
    (r : NewResult) (w : World)
    (hdb : E.CreateDB ctx config "lightchaindata" = none)
    (hrun : (New E ctx config).run ⟨n, []⟩ = (r, w)) :
    ∃ (chainDb : Ref) (chainConfig : ChainConfig) (genesisHash : Hash)
        (genesisErr : Option GoError),
      E.SetupGenesisBlock chainDb config.Genesis = (chainConfig, genesisHash, genesisErr) ∧
      w.trace.take 2 = [Call.CreateDB ctx config "lightchaindata" (.ok chainDb),
        Call.SetupGenesisBlock chainDb config.Genesis chainConfig genesisHash genesisErr] ∧
      (r.site = .genesis ↔ genesisErr ≠ none ∧ ∀ c, genesisErr ≠ some (.configCompat c)) ∧
      (r.site = .genesis → r.eth = none ∧ r.err = genesisErr ∧ w.trace.length = 2) ∧
      (r.site ≠ .genesis → ∃ (odr engine blockchain : Ref) (args : PMArgs),
        args.blockchain = blockchain ∧ args.odr = odr ∧ args.chainDb = chainDb ∧
        (∀ o g e ret, Call.NewLightChain o g e ret ∈ w.trace →
          o = odr ∧ g = chainConfig ∧ e = engine) ∧
        (∀ a ret, Call.NewProtocolManager a ret ∈ w.trace → a = args) ∧
        (∀ e, E.NewLightChain odr chainConfig engine = some e →
          r = ⟨none, some e, .lightChain⟩ ∧
          Call.NewLightChain odr chainConfig engine (.err e) ∈ w.trace ∧
          ∀ call ∈ w.trace,
            (∀ bc k, call ≠ .SetHead bc k) ∧ ∀ d hh cfg, call ≠ .WriteChainConfig d hh cfg) ∧
        (E.NewLightChain odr chainConfig engine = none →
          Call.NewLightChain odr chainConfig engine (.ok blockchain) ∈ w.trace ∧
          (∀ c, genesisErr = some (.configCompat c) →
            List.Sublist [Call.NewLightChain odr chainConfig engine (.ok blockchain),
              Call.SetHead blockchain c.RewindTo,
              Call.WriteChainConfig chainDb genesisHash chainConfig] w.trace) ∧
          (∀ e, E.NewProtocolManager args = some e →
            r = ⟨none, some e, .protocolManager⟩ ∧
            Call.NewProtocolManager args (.err e) ∈ w.trace) ∧
          (E.NewProtocolManager args = none →
            r.site = .done ∧ r.err = none ∧
            ∃ eth, r.eth = some eth ∧ eth.blockchain = blockchain ∧ eth.odr = odr ∧
              eth.chainDb = chainDb ∧
              Call.NewProtocolManager args (.ok eth.protocolManager) ∈ w.trace))) ∧
      ((∃ c, genesisErr = some (.configCompat c)) → r.err ≠ none →
        (∃ odr cfg eng e, Call.NewLightChain odr cfg eng (.err e) ∈ w.trace ∧ r.err = some e) ∨
        (∃ args e, Call.NewProtocolManager args (.err e) ∈ w.trace ∧ r.err = some e)) ∧
      (∀ c, genesisErr = some (.configCompat c) →
        ∀ odr cfg eng bc, Call.NewLightChain odr cfg eng (.ok bc) ∈ w.trace →
          List.Sublist [Call.NewLightChain odr cfg eng (.ok bc), Call.SetHead bc c.RewindTo,
            Call.WriteChainConfig chainDb genesisHash chainConfig] w.trace) ∧
      (genesisErr = none → ∀ call ∈ w.trace,
        (∀ bc k, call ≠ .SetHead bc k) ∧ ∀ d hh cfg, call ≠ .WriteChainConfig d hh cfg) ∧
      (∀ c, genesisErr = some (.configCompat c) →
        ((New (E.withGenesisErr none) ctx config).run ⟨n, []⟩).1 = r) := by
  rcases hg : E.SetupGenesisBlock n config.Genesis with ⟨cc, gh, ge⟩
  have hg0 : (E.withGenesisErr none).SetupGenesisBlock n config.Genesis = (cc, gh, none) := by
    simp [Collaborators.withGenesisErr, hg]
  have hrun0 := New_run_eq (E.withGenesisErr none) ctx config n cc gh none hdb hg0
  have hsame := runAt_compat_result E ctx config n cc gh
  rw [New_run_eq E ctx config n cc gh ge hdb hg] at hrun
  refine ⟨n, cc, gh, ge, hg, ?_⟩
  rcases ge with _ | (c | m)
  · clear hsame hrun0 hg0
    cases hlc : E.NewLightChain (n + 11) cc (n + 4) with
    | some e =>
      simp [runAt, hlc, assertConfigCompat] at hrun
      obtain ⟨rfl, rfl⟩ := hrun
      refine ⟨by simp [callsGenesis], by simp, by simp, ?_, by simp,
        by simp, by simp [callsGenesis, callsWiring], by simp⟩
      intro _
      refine ⟨n + 11, n + 4, n + 12, pmArgsAt ctx config n cc, rfl, rfl, rfl, ?_⟩
      simp [callsGenesis, callsWiring, hlc]
      intro _ _ _ _ h1 h2 h3 _
      exact ⟨h1, h2, h3⟩
    | none =>
      cases hpm : E.NewProtocolManager (pmArgsAt ctx config n cc) <;>
      simp [runAt, hlc, hpm, assertConfigCompat] at hrun <;>
      obtain ⟨rfl, rfl⟩ := hrun <;>
      refine ⟨by simp [callsGenesis], by simp, by simp, ?_, by simp,
        by simp, by simp [callsGenesis, callsWiring, callsRewind], by simp⟩ <;>
      intro _ <;>
      refine ⟨n + 11, n + 4, n + 12, pmArgsAt ctx config n cc, rfl, rfl, rfl, ?_⟩ <;>
      simp [callsGenesis, callsWiring, callsRewind, serviceAt, hlc, hpm] <;>
      intro _ _ _ _ h1 h2 h3 _ <;>
      exact ⟨h1, h2, h3⟩
  · have hs := hsame c
    clear hsame
    rw [← hrun0] at hs
    clear hrun0 hg0
    cases hlc : E.NewLightChain (n + 11) cc (n + 4) with
    | some e =>
      simp [runAt, hlc, assertConfigCompat] at hrun hs
      obtain ⟨rfl, rfl⟩ := hrun
      refine ⟨by simp [callsGenesis], by simp, by simp, ?_, by simp [callsGenesis, callsWiring],
        by simp [callsGenesis, callsWiring], by simp, ?_⟩
      · intro _
        refine ⟨n + 11, n + 4, n + 12, pmArgsAt ctx config n cc, rfl, rfl, rfl, ?_⟩
        simp [callsGenesis, callsWiring, hlc]
        intro _ _ _ _ h1 h2 h3 _
        exact ⟨h1, h2, h3⟩
      · intro _ _
        exact hs
    | none =>
      cases hpm : E.NewProtocolManager (pmArgsAt ctx config n cc) with
      | some e =>
        simp [runAt, hlc, hpm, assertConfigCompat] at hrun hs
        obtain ⟨rfl, rfl⟩ := hrun
        refine ⟨by simp [callsGenesis], by simp, by simp, ?_,
          by simp [callsGenesis, callsWiring, callsRewind], ?_, by simp, ?_⟩
        · intro _
          refine ⟨n + 11, n + 4, n + 12, pmArgsAt ctx config n cc, rfl, rfl, rfl, ?_⟩
          simp [callsGenesis, callsWiring, callsRewind, hlc, hpm]
          refine ⟨?_, ?_⟩
          · intro _ _ _ _ h1 h2 h3 _
            exact ⟨h1, h2, h3⟩
          · repeat (first | exact List.nil_sublist _ | apply List.Sublist.cons₂ |
            apply List.Sublist.cons)
        · simp [callsGenesis, callsWiring, callsRewind]
          intro _ _ _ _ h1 h2 h3 h4
          subst h1 h2 h3 h4
          repeat (first | exact List.nil_sublist _ | apply List.Sublist.cons₂ |
            apply List.Sublist.cons)
        · intro _ _
          exact hs
      | none =>
        simp [runAt, hlc, hpm, assertConfigCompat] at hrun hs
        obtain ⟨rfl, rfl⟩ := hrun
        refine ⟨by simp [callsGenesis], by simp, by simp, ?_,
          by simp, ?_, by simp, ?_⟩
        · intro _
          refine ⟨n + 11, n + 4, n + 12, pmArgsAt ctx config n cc, rfl, rfl, rfl, ?_⟩
          simp [callsGenesis, callsWiring, callsRewind, serviceAt, hlc, hpm]
          refine ⟨?_, ?_⟩
          · intro _ _ _ _ h1 h2 h3 _
            exact ⟨h1, h2, h3⟩
          · repeat (first | exact List.nil_sublist _ | apply List.Sublist.cons₂ |
            apply List.Sublist.cons)
        · simp [callsGenesis, callsWiring, callsRewind]
          intro _ _ _ _ h1 h2 h3 h4
          subst h1 h2 h3 h4
          repeat (first | exact List.nil_sublist _ | apply List.Sublist.cons₂ |
            apply List.Sublist.cons)
        · intro _ _
          exact hs
  · simp [runAt, assertConfigCompat] at hrun
    obtain ⟨rfl, rfl⟩ := hrun
    simp [callsGenesis]

/-- The genesis check at the sample run: the genesis setup reports a
`ConfigCompatError` with `RewindTo = 5` and every other collaborator
succeeds. `New` succeeds, and `SetHead(5)` on the chain (object 12) and
`WriteChainConfig` on the database (object 0) are among its calls. -/
theorem New_genesis_check_witness :
    (sampleCollaborators sampleCompat).CreateDB sampleCtx sampleConfig "lightchaindata" = none ∧
    (New (sampleCollaborators sampleCompat) sampleCtx sampleConfig).run ⟨0, []⟩
      = (sampleRun.1, sampleRun.2) ∧
    (sampleRun.1.site = .done ∧ sampleRun.1.err = none ∧ sampleRun.1.eth.isSome = true ∧
      Call.SetHead 12 5 ∈ sampleRun.2.trace ∧
      Call.WriteChainConfig 0 sampleHash ⟨7⟩ ∈ sampleRun.2.trace) ∧
    ∃ (chainDb : Ref) (chainConfig : ChainConfig) (genesisHash : Hash)
        (genesisErr : Option GoError),
      (sampleCollaborators sampleCompat).SetupGenesisBlock chainDb sampleConfig.Genesis
        = (chainConfig, genesisHash, genesisErr) ∧
      sampleRun.2.trace.take 2 = [Call.CreateDB sampleCtx sampleConfig "lightchaindata" (.ok chainDb),
        Call.SetupGenesisBlock chainDb sampleConfig.Genesis chainConfig genesisHash genesisErr] ∧
      (sampleRun.1.site = .genesis ↔
        genesisErr ≠ none ∧ ∀ c, genesisErr ≠ some (.configCompat c)) ∧
      (sampleRun.1.site = .genesis →
        sampleRun.1.eth = none ∧ sampleRun.1.err = genesisErr ∧ sampleRun.2.trace.length = 2) ∧
      (sampleRun.1.site ≠ .genesis → ∃ (odr engine blockchain : Ref) (args : PMArgs),
        args.blockchain = blockchain ∧ args.odr = odr ∧ args.chainDb = chainDb ∧
        (∀ o g e ret, Call.NewLightChain o g e ret ∈ sampleRun.2.trace →
          o = odr ∧ g = chainConfig ∧ e = engine) ∧
        (∀ a ret, Call.NewProtocolManager a ret ∈ sampleRun.2.trace → a = args) ∧
        (∀ e, (sampleCollaborators sampleCompat).NewLightChain odr chainConfig engine = some e →
          sampleRun.1 = ⟨none, some e, .lightChain⟩ ∧
          Call.NewLightChain odr chainConfig engine (.err e) ∈ sampleRun.2.trace ∧
          ∀ call ∈ sampleRun.2.trace,
            (∀ bc k, call ≠ .SetHead bc k) ∧ ∀ d hh cfg, call ≠ .WriteChainConfig d hh cfg) ∧
        ((sampleCollaborators sampleCompat).NewLightChain odr chainConfig engine = none →
          Call.NewLightChain odr chainConfig engine (.ok blockchain) ∈ sampleRun.2.trace ∧
          (∀ c, genesisErr = some (.configCompat c) →
            List.Sublist [Call.NewLightChain odr chainConfig engine (.ok blockchain),
              Call.SetHead blockchain c.RewindTo,
              Call.WriteChainConfig chainDb genesisHash chainConfig] sampleRun.2.trace) ∧
          (∀ e, (sampleCollaborators sampleCompat).NewProtocolManager args = some e →
            sampleRun.1 = ⟨none, some e, .protocolManager⟩ ∧
            Call.NewProtocolManager args (.err e) ∈ sampleRun.2.trace) ∧
          ((sampleCollaborators sampleCompat).NewProtocolManager args = none →
            sampleRun.1.site = .done ∧ sampleRun.1.err = none ∧
            ∃ eth, sampleRun.1.eth = some eth ∧ eth.blockchain = blockchain ∧ eth.odr = odr ∧
              eth.chainDb = chainDb ∧
              Call.NewProtocolManager args (.ok eth.protocolManager) ∈ sampleRun.2.trace))) ∧
      ((∃ c, genesisErr = some (.configCompat c)) → sampleRun.1.err ≠ none →
        (∃ odr cfg eng e, Call.NewLightChain odr cfg eng (.err e) ∈ sampleRun.2.trace ∧
          sampleRun.1.err = some e) ∨
        (∃ args e, Call.NewProtocolManager args (.err e) ∈ sampleRun.2.trace ∧
          sampleRun.1.err = some e)) ∧
      (∀ c, genesisErr = some (.configCompat c) →
        ∀ odr cfg eng bc, Call.NewLightChain odr cfg eng (.ok bc) ∈ sampleRun.2.trace →
          List.Sublist [Call.NewLightChain odr cfg eng (.ok bc), Call.SetHead bc c.RewindTo,
            Call.WriteChainConfig chainDb genesisHash chainConfig] sampleRun.2.trace) ∧
      (genesisErr = none → ∀ call ∈ sampleRun.2.trace,
        (∀ bc k, call ≠ .SetHead bc k) ∧ ∀ d hh cfg, call ≠ .WriteChainConfig d hh cfg) ∧
      (∀ c, genesisErr = some (.configCompat c) →
        ((New ((sampleCollaborators sampleCompat).withGenesisErr none) sampleCtx
          sampleConfig).run ⟨0, []⟩).1 = sampleRun.1) :=
  ⟨rfl, rfl, ⟨rfl, rfl, rfl, by decide, by decide⟩,
    New_genesis_check (sampleCollaborators sampleCompat) sampleCtx sampleConfig 0
      sampleRun.1 sampleRun.2 rfl rfl⟩

/-! ## The wiring of `New` -/

/-- C2: in every successful call of `New` the peer set is created once, by
`newPeerSet`, and the calls that build the components follow in this order,
each over the objects named: the request distributor over that peer set and
the quit channel; the tx relay over the peer set and the distributor; the
server pool over the database, the quit channel and the wait group; the
retrieve manager over the peer set, the distributor and the server pool; the
ODR over the retrieve manager; the light chain over the ODR; the tx pool; and
the protocol manager over the same peer set, light chain, ODR, relay, quit
channel and wait group. The service returned holds these very objects. -/
theorem New_wiring (E : Collaborators) (ctx : ServiceContext) (config : Config) (n : Ref)
    (eth : LightLCC)
    (h : ((New E ctx config).run ⟨n, []⟩).1.eth = some eth) :
    ((New E ctx config).run ⟨n, []⟩).1.err = none ∧
    ((New E ctx config).run ⟨n, []⟩).2.trace.countP Call.isNewPeerSet = 1 ∧
    ∃ quitSync : Ref,
      List.Sublist
        [ Call.newPeerSet eth.peers,
          Call.makeChan quitSync,
          Call.newRequestDistributor eth.peers quitSync eth.reqDist,
          Call.NewLesTxRelay eth.peers eth.reqDist eth.relay,
          Call.newServerPool eth.chainDb quitSync eth.wg eth.serverPool,
          Call.newRetrieveManager eth.peers eth.reqDist eth.serverPool eth.retriever,
          Call.NewLesOdr eth.chainDb eth.retriever eth.odr,
          Call.NewLightChain eth.odr eth.chainConfig eth.engine (.ok eth.blockchain),
          Call.NewTxPool eth.chainConfig eth.blockchain eth.relay eth.txPool,
          Call.NewProtocolManager ⟨eth.chainConfig, true, eth.networkId, eth.eventMux,
            eth.engine, eth.peers, eth.blockchain, none, eth.chainDb, eth.odr, eth.relay,
            quitSync, eth.wg⟩ (.ok eth.protocolManager) ]
        ((New E ctx config).run ⟨n, []⟩).2.trace := by
  cases hdb : E.CreateDB ctx config "lightchaindata" with
  | some e =>
    simp [New, callFallible, emit, StateT.run, bind, StateT.bind, pure, StateT.pure, hdb] at h
  | none =>
    rcases hg : E.SetupGenesisBlock n config.Genesis with ⟨cc, gh, ge⟩
    rw [New_run_eq E ctx config n cc gh ge hdb hg] at h ⊢
    cases hlc : E.NewLightChain (n + 11) cc (n + 4) with
    | some e =>
      rcases ge with _ | (c | m) <;> simp [runAt, hlc, assertConfigCompat] at h
    | none =>
      cases hpm : E.NewProtocolManager (pmArgsAt ctx config n cc) with
      | some e =>
        rcases ge with _ | (c | m) <;> simp [runAt, hlc, hpm, assertConfigCompat] at h
      | none =>
        rcases ge with _ | (c | m) <;>
        simp [runAt, hlc, hpm, assertConfigCompat] at h ⊢ <;>
        subst h <;>
        simp [Call.isNewPeerSet, callsGenesis, callsWiring, callsRewind, serviceAt, pmArgsAt] <;>
        refine ⟨n + 2, ?_⟩ <;>
        repeat (first | exact List.nil_sublist _ | apply List.Sublist.cons₂ | apply List.Sublist.cons)

/-- The wiring at a run in which every collaborator succeeds and the genesis
setup reports no error. -/
theorem New_wiring_witness :
    ((New (sampleCollaborators none) sampleCtx sampleConfig).run ⟨0, []⟩).1.eth
      = some (serviceAt sampleCtx sampleConfig 0 ⟨7⟩) ∧
    ((New (sampleCollaborators none) sampleCtx sampleConfig).run ⟨0, []⟩).1.err = none ∧
    ((New (sampleCollaborators none) sampleCtx sampleConfig).run ⟨0, []⟩).2.trace.countP
      Call.isNewPeerSet = 1 ∧
    ∃ quitSync : Ref,
      List.Sublist
        [ Call.newPeerSet 1,
          Call.makeChan quitSync,
          Call.newRequestDistributor 1 quitSync 3,
          Call.NewLesTxRelay 1 3 8,
          Call.newServerPool 0 quitSync 7 9,
          Call.newRetrieveManager 1 3 9 10,
          Call.NewLesOdr 0 10 11,
          Call.NewLightChain 11 ⟨7⟩ 4 (.ok 12),
          Call.NewTxPool ⟨7⟩ 12 8 13,
          Call.NewProtocolManager ⟨⟨7⟩, true, 1, 100, 4, 1, 12, none, 0, 11, 8, quitSync, 7⟩
            (.ok 14) ]
        ((New (sampleCollaborators none) sampleCtx sampleConfig).run ⟨0, []⟩).2.trace :=
  ⟨rfl, New_wiring (sampleCollaborators none) sampleCtx sampleConfig 0
    (serviceAt sampleCtx sampleConfig 0 ⟨7⟩) rfl⟩

/-! ## LightDummyAPI -/

/-- C4: for every receiver, `Coinbase` returns what `Etherbase` returns, the
zero address (twenty zero bytes) with a non-nil error whose message is
"not supported"; neither call returns a nil error. -/
theorem Coinbase_alias_Etherbase (s : LightDummyAPI) :
    s.Coinbase = s.Etherbase ∧
    s.Etherbase = (Address.zero, some (GoError.plain "not supported")) ∧
    Address.zero.bytes = List.replicate 20 0 ∧
    s.Etherbase.2.isSome = true ∧ s.Coinbase.2.isSome = true :=
  ⟨rfl, rfl, rfl, rfl, rfl⟩

/-- C5: for every receiver, `Mining` returns false and `Hashrate` returns 0. -/
theorem Mining_false_Hashrate_zero (s : LightDummyAPI) :
    s.Mining = false ∧ s.Hashrate = 0 :=
  ⟨rfl, rfl⟩

/-! ## The discovery topic -/

/-- C6: for every genesis hash `h`, `lesTopic h` is "LES@" followed by the
lowercase hexadecimal encoding of the first 8 bytes of `h`: its first four
characters are `LES@`, the rest are lowercase hexadecimal digits that read
back as those 8 bytes, and it is 20 characters, and 20 bytes, long. `Start`
starts the server pool once, with the topic of the genesis hash of the light
chain, and returns a nil error. -/
theorem lesTopic_spec (h : Hash) (E : Collaborators) (s : LightLCC) (srvr n : Ref) :
    lesTopic h = "LES@" ++ Bytes2Hex (h.bytes.take 8) ∧
    (lesTopic h).data.take 4 = ['L', 'E', 'S', '@'] ∧
    ((lesTopic h).data.drop 4).all (fun c => decide (c ∈ hextable)) = true ∧
    decodeHex ((lesTopic h).data.drop 4) = some ((h.bytes.take 8).map fun v => v.val) ∧
    (lesTopic h).length = 20 ∧
    (lesTopic h).utf8ByteSize = 20 ∧
    ((s.Start E srvr).run ⟨n, []⟩).2.trace.filter Call.isServerPoolStart
      = [Call.serverPoolStart s.serverPool srvr (lesTopic (E.GenesisHash s.blockchain))] ∧
    ((s.Start E srvr).run ⟨n, []⟩).1.2 = none := by
  have hd := lesTopic_data h
  refine ⟨?_, ?_, ?_, ?_, ?_, ?_, ?_, ?_⟩
  · simp [lesTopic, Hash.Bytes, slice_zero]
  · simp [hd]
  · rw [hd]
    simp only [List.drop_left', List.length_cons, List.length_nil, List.all_eq_true,
      decide_eq_true_eq]
    exact flatMap_hexPair_mem _
  · rw [hd]
    simp only [List.drop_left', List.length_cons, List.length_nil]
    exact decodeHex_flatMap_hexPair _
  · have hl : (lesTopic h).length = (lesTopic h).data.length := rfl
    rw [hl, hd, List.length_append, flatMap_hexPair_length, List.length_take, h.size]
    rfl
  · have hb : (lesTopic h).utf8ByteSize = String.utf8Len (lesTopic h).data := rfl
    rw [hb, hd, String.utf8Len_append, flatMap_hexPair_utf8Len, List.length_take, h.size]
    rfl
  · simp [LightLCC.Start, construct, fresh, emit, StateT.run, bind, StateT.bind, pure,
      StateT.pure, Call.isServerPoolStart]
  · simp [LightLCC.Start, construct, fresh, emit, StateT.run, bind, StateT.bind, pure,
      StateT.pure]

end Les
